import Mathlib

/-!
Verification development for the JSON document-object-model library in
src/Tools/JSObjects.cpp (classes JSObject / JSInteger / JSReal / JSString /
JSBoolean / JSNull / JSArray / JSDictionary, the path resolver
JSObject::traverse, the serializer dump/dump1/QuoteString, and the
callback-based builder adapter used by JSDictionary::Parse).

Strings are modelled as byte sequences (List Nat, each element a byte value
below 256), matching the C++ code which operates on raw std::string bytes
and never re-validates UTF-8.
-/

set_option maxRecDepth 4000

/-- Bytes of an ASCII Lean string; used to build concrete byte-string inputs. -/
def strBytes (s : String) : List Nat := s.data.map Char.toNat

/-- The lookup table indexed by JSObject::QuoteString, line 92 of the source:
the byte at position i of the literal text 0123456789abcdef. -/
def hexDigitTable : List Nat := strBytes ("0123456789abcdef")

/-- hexChar i is the character the C code emits for nibble i. -/
def hexChar (i : Nat) : Nat := hexDigitTable.getD i 0

/-! ## The value model

JSObject's class hierarchy (JSNull / JSBoolean / JSInteger / JSReal /
JSString / JSArray / JSDictionary) becomes a closed tagged union.
JSDictionary preserves insertion order and has unique keys, so it is a list
of key/value pairs. JSCastTo becomes a constructor match. -/

inductive JSObject where
  | null
  | boolean (b : Bool)
  | integer (i : Int)
  | real (r : Float)
  | string (s : List Nat)
  | array (elems : List JSObject)
  | dict (entries : List (List Nat × JSObject))

/-- Modelled from the spec: JSDictionary::value(key) lives in the header
(not under src/); spec section 4.1 says it returns a borrowed reference or
None if absent. First match in insertion order (keys are unique). -/
def dictGet : List (List Nat × JSObject) → List Nat → Option JSObject
  | [], _ => none
  | (k, v) :: rest, key => if k = key then some v else dictGet rest key

/-- Modelled from the spec: JSDictionary::set(key, value) lives in the
header (not under src/); spec section 4.1 says it inserts or replaces,
preserving the key's original position on replace. -/
def dictSet : List (List Nat × JSObject) → List Nat → JSObject → List (List Nat × JSObject)
  | [], key, v => [(key, v)]
  | (k, v0) :: rest, key, v =>
    if k = key then (k, v) :: rest else (k, v0) :: dictSet rest key v

/-! ## strtoul, base 0

JSObject::traverse line 37 calls strtoul(cpath + 1, &end, 0).  We model the
C library function for base 0: skip leading whitespace, optional single
sign, then a 0x/0X prefix selects base 16, a leading 0 selects base 8,
otherwise base 10; if no digit at all is consumed there is no conversion,
the value is 0 and the end pointer is the original start; on overflow the
result clamps to ULONG_MAX; a negative sign negates modulo 2^64. -/

def isSpaceB (c : Nat) : Bool :=
  c = 32 || c = 9 || c = 10 || c = 11 || c = 12 || c = 13

/-- Value of byte c as a digit in the given base (digits 0-9, a-f, A-F). -/
def digitVal (base : Nat) (c : Nat) : Option Nat :=
  if 48 ≤ c ∧ c ≤ 57 then (if c - 48 < base then some (c - 48) else none)
  else if 97 ≤ c ∧ c ≤ 102 then (if c - 87 < base then some (c - 87) else none)
  else if 65 ≤ c ∧ c ≤ 70 then (if c - 55 < base then some (c - 55) else none)
  else none

/-- Consume digits of the given base; returns (digit count, value, rest). -/
def takeDigits (base : Nat) : List Nat → Nat → Nat → Nat × Nat × List Nat
  | [], acc, cnt => (cnt, acc, [])
  | c :: rest, acc, cnt =>
    match digitVal base c with
    | some d => takeDigits base rest (acc * base + d) (cnt + 1)
    | none => (cnt, acc, c :: rest)

def ULONG_MAX : Nat := 2 ^ 64 - 1

/-- Final unsigned-long value: clamp to ULONG_MAX on overflow, otherwise
negate modulo 2^64 when a minus sign was seen. -/
def strtoulFinish (neg : Bool) (v : Nat) : Nat :=
  if ULONG_MAX < v then ULONG_MAX
  else if neg then (2 ^ 64 - v % 2 ^ 64) % 2 ^ 64 else v

/-- strtoul with base 0 on a byte list: returns the value and the suffix the
end pointer designates.  When no conversion is performed the end pointer is
the original input (including any skipped whitespace or sign). -/
def strtoulB0 (cs : List Nat) : Nat × List Nat :=
  let aw := cs.dropWhile isSpaceB
  let pr : Bool × List Nat :=
    match aw with
    | 43 :: r => (false, r)
    | 45 :: r => (true, r)
    | _ => (false, aw)
  match pr.2 with
  | 48 :: c2 :: r =>
    if c2 = 120 ∨ c2 = 88 then
      match takeDigits 16 r 0 0 with
      | (0, _, _) => (0, c2 :: r)
      | (Nat.succ _, v, rest) => (strtoulFinish pr.1 v, rest)
    else
      let t := takeDigits 8 (48 :: c2 :: r) 0 0
      (strtoulFinish pr.1 t.2.1, t.2.2)
  | [48] => (strtoulFinish pr.1 0, [])
  | other =>
    let t := takeDigits 10 other 0 0
    if t.1 = 0 then (0, cs) else (strtoulFinish pr.1 t.2.1, t.2.2)

/-! ## The key scanner of JSObject::traverse (source lines 53-61)

From bpath, advance while the current byte is not an unescaped dot or
opening bracket; a dot/bracket is a delimiter when the scan is at its first
character (cpath == bpath) or the previous byte is not a backslash.  The
prev argument is none exactly when no byte has been consumed yet, so the
break condition is: delimiter byte and prev is not backslash. -/

def scanKeyAux : List Nat → Option Nat → List Nat × List Nat
  | [], _ => ([], [])
  | c :: rest, prev =>
    if (c = 46 ∨ c = 91) ∧ prev ≠ some 92 then ([], c :: rest)
    else
      let t := scanKeyAux rest (some c)
      (c :: t.1, t.2)

def scanKey (cs : List Nat) : List Nat × List Nat := scanKeyAux cs none

/-! ## JSObject::traverse (source lines 20-73)

The loop state is the current object, the remaining path bytes, and a flag
standing for the pointer comparison obj == this; the flag starts true and
becomes false whenever obj is reassigned (children are distinct nodes of an
acyclic tree, so a child pointer never equals the root pointer).

One iteration of the while loop either returns (done) or continues with a
new state (cont).  Note the dictionary branch at lines 48-66: when the
guard (obj == this || *cpath == '.') holds but the JSCastTo cast to
JSDictionary fails, the body is skipped and neither cpath nor obj advances,
which we model faithfully as cont with an unchanged state. -/

inductive TStep where
  | done (r : Option JSObject)
  | cont (obj : JSObject) (atRoot : Bool) (cs : List Nat)

def traverseStep (obj : JSObject) (atRoot : Bool) : List Nat → TStep
  | [] => TStep.done (some obj)
  | c :: rest =>
    if c = 91 then
      match obj with
      | JSObject.array elems =>
        let t := strtoulB0 rest
        if elems.length ≤ t.1 then TStep.done none
        else
          match t.2 with
          | 93 :: after2 =>
            match elems.get? t.1 with
            | some e => TStep.cont e false after2
            | none => TStep.done none
          | _ => TStep.done none
      | _ => TStep.done none
    else if atRoot = true ∨ c = 46 then
      match obj with
      | JSObject.dict entries =>
        let cs2 := if c = 46 then rest else c :: rest
        let t := scanKey cs2
        match dictGet entries t.1 with
        | some o => TStep.cont o false t.2
        | none => TStep.done none
      | _ => TStep.cont obj atRoot (c :: rest)
    else TStep.done none

/-- Fueled iteration of the traverse loop; none means the fuel ran out
(which, as the stuck-state lemmas show, only happens on the non-terminating
dictionary-cast-failure state). -/
def traverseN : Nat → JSObject → Bool → List Nat → Option (Option JSObject)
  | _, obj, _, [] => some (some obj)
  | 0, _, _, _ :: _ => none
  | Nat.succ n, obj, atRoot, c :: cs =>
    match traverseStep obj atRoot (c :: cs) with
    | TStep.done r => some r
    | TStep.cont obj2 atRoot2 cs2 => traverseN n obj2 atRoot2 cs2

/-- JSObject::traverse.  An empty path returns the receiver (line 28).
Every productive loop iteration consumes at least one path byte, so fuel
length+1 completes every terminating run; a none result therefore denotes
the infinite loop of the dictionary branch. -/
def JSObject.traverse (o : JSObject) (path : List Nat) : Option (Option JSObject) :=
  if path = [] then some (some o) else traverseN (path.length + 1) o true path

/-! ## The serializer (source lines 75-203)

dump1 renders a value given the leaf indent level and the container indent
level (the two size_t parameters of the C++ dump1); output is the byte
sequence written to the FILE.  Indent n writes n*4 spaces. -/

def Indent (n : Nat) : List Nat := List.replicate (n * 4) 32

/-- JSObject::QuoteString (lines 86-103): bytes below 32 become a backslash
and two hex digits from the table; a double quote or backslash byte gains a
preceding backslash; every other byte is copied verbatim. -/
def QuoteString : List Nat → List Nat
  | [] => []
  | b :: rest =>
    if b < 32 then 92 :: hexChar (b / 16 % 16) :: hexChar (b % 16) :: QuoteString rest
    else if b = 34 ∨ b = 92 then 92 :: b :: QuoteString rest
    else b :: QuoteString rest

/-- Decimal rendering of a signed integer, as fprintf %lld produces. -/
def intBytes (i : Int) : List Nat := strBytes (toString i)

/-- Stand-in for fprintf %g formatting of a double (JSReal::dump1).  Real
formatting is floating-point text conversion, which no claim in this
development touches; no theorem below depends on this definition's value. -/
def realBytes (r : Float) : List Nat := strBytes (toString r)

/-- The type() test at source lines 166-167: container values (array or
dictionary) get an extra leading indent inside an array. -/
def isContainer : JSObject → Bool
  | JSObject.array _ => true
  | JSObject.dict _ => true
  | _ => false

mutual

/-- dump1 for each variant (source lines 109-203). -/
def dump1 : JSObject → Nat → Nat → List Nat
  | JSObject.integer i, ind, _ => Indent ind ++ intBytes i
  | JSObject.real r, ind, _ => Indent ind ++ realBytes r
  | JSObject.string s, ind, _ => Indent ind ++ [34] ++ QuoteString s ++ [34]
  | JSObject.boolean b, ind, _ =>
    Indent ind ++ (if b then [116, 114, 117, 101] else [102, 97, 108, 115, 101])
  | JSObject.null, ind, _ => Indent ind ++ [110, 117, 108, 108]
  | JSObject.array elems, _, cindent =>
    [91] ++ [if elems.isEmpty then 32 else 10]
      ++ dumpArrElems elems true cindent
      ++ (if elems.isEmpty then [] else [10] ++ Indent cindent)
      ++ [93]
  | JSObject.dict entries, _, cindent =>
    [123] ++ [if entries.isEmpty then 32 else 10]
      ++ dumpDictEntries entries true cindent
      ++ (if entries.isEmpty then [] else [10] ++ Indent cindent)
      ++ [125]

/-- The element loop of JSArray::dump1 (lines 162-170): a comma-newline
separator before every element but the first; container elements get an
extra Indent(cindent+1); each element renders at indent cindent+1. -/
def dumpArrElems : List JSObject → Bool → Nat → List Nat
  | [], _, _ => []
  | e :: rest, first, cindent =>
    (if first then [] else [44, 10])
      ++ (if isContainer e then Indent (cindent + 1) else [])
      ++ dump1 e (cindent + 1) (cindent + 1)
      ++ dumpArrElems rest false cindent

/-- The entry loop of JSDictionary::dump1 (lines 188-195): separator, then
Indent(cindent+1), then the quoted key, space colon space, then the value
rendered with leaf indent 0 and container indent cindent+1. -/
def dumpDictEntries : List (List Nat × JSObject) → Bool → Nat → List Nat
  | [], _, _ => []
  | (k, v) :: rest, first, cindent =>
    (if first then [] else [44, 10])
      ++ Indent (cindent + 1) ++ [34] ++ QuoteString k ++ [34] ++ [32, 58, 32]
      ++ dump1 v 0 (cindent + 1)
      ++ dumpDictEntries rest false cindent

end

/-- JSObject::dump (lines 75-80): dump1 with both indents equal, then a
trailing newline. -/
def JSObject.dump (o : JSObject) (indent : Nat) : List Nat :=
  dump1 o indent indent ++ [10]

/-! ## The builder / parser adapter (source lines 209-408)

The external tokenizer json_fparse is out of scope (spec section 1 treats
it as a black-box push parser); we model the event stream it emits and the
callback table _json_vb that consumes it.  JSDictionary::Parse passes the
address of its root variable as the initial callback target, so the target
of an event is either the root slot (builder stack empty) or the container
handle most recently returned (top of the stack).

In the C code a new container is attached to its parent at creation time
and then mutated through its handle; in this pure model a frame records the
container's contents plus where it attaches, and the attachment happens
when the frame is popped.  Since the tokenizer finishes a child before
touching its parent again, both orders produce the same tree.

Where the C code reaches assert(0) (the casts on an unsuitable target
cannot succeed; on the root-slot target reinterpreting a JSObject** as a
JSObject* never yields a valid JSArray or JSDictionary), the model returns
a contract-violation error; assert(m != nullptr) failures likewise. -/

inductive Event where
  | string (key : Option (List Nat)) (s : List Nat)
  | int (key : Option (List Nat)) (i : Int)
  | double (key : Option (List Nat)) (r : Float)
  | bool (key : Option (List Nat)) (b : Bool)
  | null (key : Option (List Nat))
  | newObj (key : Option (List Nat))
  | endObj
  | newArr (key : Option (List Nat))
  | endArr
  | error (line col : Nat) (msg : List Nat)

/-- The C assertion messages, as abstract error values. -/
inductive BuildErr where
  | contractViolation
  | nullKey
  | stackMismatch

/-- Where a container under construction attaches when it is finished. -/
inductive Attach where
  | root
  | toArr
  | toDict (key : List Nat)

/-- A container currently open during parsing. -/
inductive Frame where
  | fdict (entries : List (List Nat × JSObject)) (att : Attach)
  | farr (elems : List JSObject) (att : Attach)

/-- Builder state: the pending root (the root variable of
JSDictionary::Parse, filled when the bottom frame closes) and the stack of
open containers (top first). -/
structure BState where
  root : Option JSObject
  stack : List Frame

/-- Scalar dispatch shared by _json_string / _json_int / _json_double /
_json_bool / _json_null (lines 231-294): an array target appends (any key
is ignored), a dictionary target requires a key and sets it, any other
target is assert(0). -/
def attachScalar (st : BState) (key : Option (List Nat)) (v : JSObject) : Except BuildErr BState :=
  match st.stack with
  | Frame.farr elems att :: rest => Except.ok ⟨st.root, Frame.farr (elems ++ [v]) att :: rest⟩
  | Frame.fdict entries att :: rest =>
    match key with
    | some k => Except.ok ⟨st.root, Frame.fdict (dictSet entries k v) att :: rest⟩
    | none => Except.error BuildErr.nullKey
  | [] => Except.error BuildErr.contractViolation

/-- _json_new_obj (lines 296-318): with a null key, an empty root slot
receives the new dictionary as pending root; otherwise a null-keyed object
may only go into an array, and a keyed object only into a dictionary. -/
def applyNewObj (st : BState) (key : Option (List Nat)) : Except BuildErr BState :=
  match key with
  | none =>
    match st.stack with
    | [] =>
      match st.root with
      | none => Except.ok ⟨st.root, [Frame.fdict [] Attach.root]⟩
      | some _ => Except.error BuildErr.contractViolation
    | Frame.farr elems att :: rest =>
      Except.ok ⟨st.root, Frame.fdict [] Attach.toArr :: Frame.farr elems att :: rest⟩
    | Frame.fdict _ _ :: _ => Except.error BuildErr.contractViolation
  | some k =>
    match st.stack with
    | Frame.fdict entries att :: rest =>
      Except.ok ⟨st.root, Frame.fdict [] (Attach.toDict k) :: Frame.fdict entries att :: rest⟩
    | _ => Except.error BuildErr.contractViolation

/-- _json_new_array (lines 322-337): there is no root-slot branch here; an
array target appends (the key is ignored, the array cast is tested first),
a dictionary target requires a key, anything else is assert(0) - in
particular a begin-array while the stack is empty. -/
def applyNewArr (st : BState) (key : Option (List Nat)) : Except BuildErr BState :=
  match st.stack with
  | Frame.farr elems att :: rest =>
    Except.ok ⟨st.root, Frame.farr [] Attach.toArr :: Frame.farr elems att :: rest⟩
  | Frame.fdict entries att :: rest =>
    match key with
    | some k =>
      Except.ok ⟨st.root, Frame.farr [] (Attach.toDict k) :: Frame.fdict entries att :: rest⟩
    | none => Except.error BuildErr.nullKey
  | [] => Except.error BuildErr.contractViolation

/-- Attach a finished container where its frame said it belongs. -/
def attachChild (st : BState) (child : JSObject) (att : Attach) : Except BuildErr BState :=
  match att with
  | Attach.root => Except.ok ⟨some child, st.stack⟩
  | Attach.toArr =>
    match st.stack with
    | Frame.farr elems patt :: rest => Except.ok ⟨st.root, Frame.farr (elems ++ [child]) patt :: rest⟩
    | _ => Except.error BuildErr.stackMismatch
  | Attach.toDict k =>
    match st.stack with
    | Frame.fdict entries patt :: rest => Except.ok ⟨st.root, Frame.fdict (dictSet entries k child) patt :: rest⟩
    | _ => Except.error BuildErr.stackMismatch

/-- End of an object: pop its frame and attach the finished dictionary
(_json_obj itself is a no-op; the pop mirrors the tokenizer's bookkeeping,
and a mismatched end is a breach of the tokenizer's nesting contract). -/
def applyEndObj (st : BState) : Except BuildErr BState :=
  match st.stack with
  | Frame.fdict entries att :: rest => attachChild ⟨st.root, rest⟩ (JSObject.dict entries) att
  | _ => Except.error BuildErr.stackMismatch

/-- End of an array: pop its frame and attach the finished array. -/
def applyEndArr (st : BState) : Except BuildErr BState :=
  match st.stack with
  | Frame.farr elems att :: rest => attachChild ⟨st.root, rest⟩ (JSObject.array elems) att
  | _ => Except.error BuildErr.stackMismatch

/-- One builder callback.  An error event is a no-op here (the policy-true
path of _json_err returns 0 and parsing resumes); processEvents below
handles the aborting path. -/
def applyEvent (st : BState) : Event → Except BuildErr BState
  | Event.string k s => attachScalar st k (JSObject.string s)
  | Event.int k i => attachScalar st k (JSObject.integer i)
  | Event.double k r => attachScalar st k (JSObject.real r)
  | Event.bool k b => attachScalar st k (JSObject.boolean b)
  | Event.null k => attachScalar st k JSObject.null
  | Event.newObj k => applyNewObj st k
  | Event.endObj => applyEndObj st
  | Event.newArr k => applyNewArr st k
  | Event.endArr => applyEndArr st
  | Event.error _ _ _ => Except.ok st

/-- The event loop of a parse (json_fparse driving _json_vb and _json_err,
with the setjmp in JSDictionary::Parse at lines 385-403): on an error event
the caller-supplied policy decides; false triggers the longjmp, after which
Parse deletes the pending root and returns nullptr - the result is none and
everything built so far is discarded.  When the events are exhausted,
json_fparse returns and Parse returns the root variable. -/
def processEvents (policy : Nat → Nat → List Nat → Bool) : BState → List Event → Except BuildErr (Option JSObject)
  | st, [] => Except.ok st.root
  | st, Event.error l c m :: rest =>
    if policy l c m then processEvents policy st rest else Except.ok none
  | st, e :: rest =>
    match applyEvent st e with
    | Except.ok st2 => processEvents policy st2 rest
    | Except.error msg => Except.error msg

/-- The initial state of JSDictionary::Parse: root = nullptr, no open
containers. -/
def initState : BState := ⟨none, []⟩

/-- The error policy of the Parse overloads that take none (lines 380-383,
405-408): always abort. -/
def defaultPolicy : Nat → Nat → List Nat → Bool := fun _ _ _ => false

/-- A whole parse from the empty state. -/
def runParse (policy : Nat → Nat → List Nat → Bool) (events : List Event) : Except BuildErr (Option JSObject) :=
  processEvents policy initState events

/-! ## Spec-side definitions used to state refinement claims -/

/-- Written from the spec's words for the string-quoting claim: a byte
below 0x20 becomes a backslash followed by exactly two lowercase hex
digits of the byte, a quote or backslash byte is preceded by a backslash,
and every other byte is copied verbatim. -/
def escByteSpec (b : Nat) : List Nat :=
  if b < 32 then [92, hexChar (b / 16), hexChar (b % 16)]
  else if b = 34 ∨ b = 92 then [92, b] else [b]

/-- The per-byte spec rule applied to a whole string. -/
def quoteStringSpec : List Nat → List Nat
  | [] => []
  | b :: rest => escByteSpec b ++ quoteStringSpec rest

/-- The example document of the spec's path-resolution property:
the dictionary, written in JSON, reading as a maps to b maps to the array
of 10, 20 and a dictionary where c maps to the string x.y. -/
def exampleDoc : JSObject :=
  JSObject.dict [([97], JSObject.dict [([98], JSObject.array
    [JSObject.integer 10, JSObject.integer 20,
     JSObject.dict [([99], JSObject.string [120, 46, 121])]])])]

/-! ## Helper lemmas -/

/-- The key scanner only splits its input: the key and the rest concatenate
back to the scanned text, so no byte is altered or dropped. -/
theorem scanKeyAux_append (cs : List Nat) : ∀ prev, (scanKeyAux cs prev).1 ++ (scanKeyAux cs prev).2 = cs := by
  induction cs with
  | nil => intro prev; rfl
  | cons c rest ih =>
    intro prev
    unfold scanKeyAux
    by_cases h : (c = 46 ∨ c = 91) ∧ prev ≠ some 92
    · rw [if_pos h]; rfl
    · rw [if_neg h]
      simpa using ih (some c)

/-- scanKey splits without modifying any byte. -/
theorem scanKey_append (cs : List Nat) : (scanKey cs).1 ++ (scanKey cs).2 = cs :=
  scanKeyAux_append cs none

/-- A state on which the loop body makes no progress never produces a
result, whatever the fuel: the C while loop runs forever. -/
theorem traverseN_stuck (o : JSObject) (r : Bool) (c : Nat) (cs : List Nat)
    (h : traverseStep o r (c :: cs) = TStep.cont o r (c :: cs)) :
    ∀ n, traverseN n o r (c :: cs) = none := by
  intro n
  induction n with
  | zero => rfl
  | succ n ih =>
    show traverseN (n + 1) o r (c :: cs) = none
    simp only [traverseN, h]
    exact ih

/-! ## Claim C9 -/

/-- Claim C9: on the document with a mapping to b mapping to the array 10,
20, dict with c mapping to the string x.y, the path a.b[2].c resolves to
the string x.y, the path a.b[3] returns absent (index out of range), and
the path a.z returns absent (missing key).  Paths are given as their byte
sequences. -/
theorem traverse_example_document :
    JSObject.traverse exampleDoc [97, 46, 98, 91, 50, 93, 46, 99]
        = some (some (JSObject.string [120, 46, 121]))
    ∧ JSObject.traverse exampleDoc [97, 46, 98, 91, 51, 93] = some none
    ∧ JSObject.traverse exampleDoc [97, 46, 122] = some none :=
  ⟨rfl, rfl, rfl⟩

/-! ## Claim C3 -/

/-- Claim C3 counterexample: a dictionary storing the literal key a.b
(bytes 97, 46, 98 - a real dot, no backslash) queried with the path text
a backslash dot b (bytes 97, 92, 46, 98) yields absent, not the stored
value: the resolver looks up the raw segment text with the backslash
still in it, which does not equal the stored key. -/
theorem traverse_escaped_dot_misses_plain_key :
    JSObject.traverse (JSObject.dict [([97, 46, 98], JSObject.integer 1)]) [97, 92, 46, 98]
      = some none := rfl

/-- Claim C3 amended: the path text a backslash dot b resolves the entry
whose stored key is the literal four bytes a backslash dot b; the escape
only extends the segment past the dot, the backslash stays part of the
looked-up key. -/
theorem traverse_escaped_dot_matches_literal_backslash_key (v : JSObject) :
    JSObject.traverse (JSObject.dict [([97, 92, 46, 98], v)]) [97, 92, 46, 98]
      = some (some v) := rfl

/-! ## Claim C1 -/

/-- Claim C1 (code bug): the spec says a dictionary-style segment on a
non-Dictionary node fails immediately with None, but the code's dictionary
branch (lines 48-66) has no else: when the JSCastTo cast fails the loop
body is skipped without advancing cpath, so traverse never returns.  On the
root dictionary mapping a to the integer 5 with path a.b, after the first
segment the current node is the integer and the loop is stuck forever: no
amount of fuel produces a result. -/
theorem traverse_nonDict_key_segment_loops :
    (∀ n, traverseN n (JSObject.dict [([97], JSObject.integer 5)]) true [97, 46, 98] = none)
    ∧ JSObject.traverse (JSObject.dict [([97], JSObject.integer 5)]) [97, 46, 98] = none := by
  constructor
  · intro n
    cases n with
    | zero => rfl
    | succ n =>
      have hstep : traverseN (n + 1) (JSObject.dict [([97], JSObject.integer 5)]) true [97, 46, 98]
          = traverseN n (JSObject.integer 5) false [46, 98] := rfl
      rw [hstep]
      exact traverseN_stuck (JSObject.integer 5) false 46 [98] rfl n
  · rfl

/-! ## Claim C2 -/

/-- Claim C2 counterexample: a bracket segment with no digits at all can
select an element.  On the array of integers 10, 20 the path consisting of
just an opening and closing bracket (bytes 91, 93) selects element 0:
strtoul finds no digit, returns 0 with the end pointer unmoved, the very
next byte is the closing bracket, and index 0 is in range. -/
theorem traverse_empty_index_selects_element_zero :
    JSObject.traverse (JSObject.array [JSObject.integer 10, JSObject.integer 20]) [91, 93]
      = some (some (JSObject.integer 10)) := rfl

/-- Claim C2 amended: on an Array node, a bracket segment fails the whole
resolution with the absent result whenever the byte at strtoul's stopping
position is not the closing bracket (this covers non-numeric content and
trailing characters after the digits); but a segment with no digits whose
very next byte is the closing bracket is not rejected: strtoul yields index
0 and element 0 is selected when the array is non-empty. -/
theorem traverse_bracket_malformed_amended :
    (∀ (elems : List JSObject) (atRoot : Bool) (cs : List Nat),
      (strtoulB0 cs).2.head? ≠ some 93 →
      traverseStep (JSObject.array elems) atRoot (91 :: cs) = TStep.done none)
    ∧ (∀ (e : JSObject) (es : List JSObject) (atRoot : Bool) (rest : List Nat),
      traverseStep (JSObject.array (e :: es)) atRoot (91 :: 93 :: rest)
        = TStep.cont e false rest) := by
  constructor
  · intro elems atRoot cs hhd
    simp only [traverseStep]
    rw [if_pos trivial]
    by_cases hlen : elems.length ≤ (strtoulB0 cs).1
    · rw [if_pos hlen]
    · rw [if_neg hlen]
      rcases h2 : (strtoulB0 cs).2 with _ | ⟨a, after2⟩
      · rfl
      · have ha : a ≠ 93 := fun h => hhd (by rw [h2, h]; rfl)
        split
        next x heq => cases heq; exact absurd rfl ha
        next => rfl
  · intro e es atRoot rest
    rfl

/-- Witness for the amended claim: the segment bracket a bracket-close on a
one-element array (path bytes 91, 97, 93) is malformed - strtoul stops at
the letter a - and the step fails with the absent result. -/
theorem traverse_bracket_malformed_witness :
    (strtoulB0 [97, 93]).2.head? ≠ some 93
    ∧ traverseStep (JSObject.array [JSObject.integer 10]) true [91, 97, 93] = TStep.done none :=
  ⟨by decide, traverse_bracket_malformed_amended.1 [JSObject.integer 10] true [97, 93] (by decide)⟩

/-! ## Claim C4 -/

/-- Claim C4: on a Dictionary node, a key segment looks up exactly the raw
segment text as delimited.  The scanned key and the unconsumed rest
concatenate back to the segment text (so the key is the literal byte slice,
backslash markers included, with no unescaping), a successful lookup of
that exact slice continues at the found child, and a failed lookup of that
exact slice fails the resolution. -/
theorem traverse_key_segment_raw_lookup (entries : List (List Nat × JSObject))
    (atRoot : Bool) (c : Nat) (cs : List Nat)
    (h1 : c ≠ 91) (h2 : atRoot = true ∨ c = 46) :
    (scanKey (if c = 46 then cs else c :: cs)).1 ++ (scanKey (if c = 46 then cs else c :: cs)).2
        = (if c = 46 then cs else c :: cs)
    ∧ (∀ o, dictGet entries (scanKey (if c = 46 then cs else c :: cs)).1 = some o →
        traverseStep (JSObject.dict entries) atRoot (c :: cs)
          = TStep.cont o false (scanKey (if c = 46 then cs else c :: cs)).2)
    ∧ (dictGet entries (scanKey (if c = 46 then cs else c :: cs)).1 = none →
        traverseStep (JSObject.dict entries) atRoot (c :: cs) = TStep.done none) := by
  refine ⟨scanKey_append _, ?_, ?_⟩
  · intro o ho
    simp only [traverseStep]
    rw [if_neg h1, if_pos h2, ho]
  · intro hnone
    simp only [traverseStep]
    rw [if_neg h1, if_pos h2, hnone]

/-- Witness for claim C4: the dictionary whose stored key is the literal
bytes a backslash dot b, queried with the dot-led segment of those same
four bytes, resolves to the stored value with the whole raw slice as the
key. -/
theorem traverse_key_segment_raw_lookup_witness :
    ((46 : Nat) ≠ 91)
    ∧ (false = true ∨ (46 : Nat) = 46)
    ∧ traverseStep (JSObject.dict [([97, 92, 46, 98], JSObject.integer 7)]) false [46, 97, 92, 46, 98]
        = TStep.cont (JSObject.integer 7) false [] :=
  ⟨by decide, Or.inr rfl,
    (traverse_key_segment_raw_lookup [([97, 92, 46, 98], JSObject.integer 7)] false 46 [97, 92, 46, 98]
        (by decide) (Or.inr rfl)).2.1 (JSObject.integer 7) rfl⟩

/-! ## Claim C5 -/

/-- Claim C5 counterexample: a begin-array event while the builder stack is
empty does not become the pending root - _json_new_array has no root-slot
branch, so the parse dies on the assert(0) contract violation instead of
producing an array root. -/
theorem builder_root_array_contract_violation :
    runParse defaultPolicy [Event.newArr none, Event.endArr]
      = Except.error BuildErr.contractViolation := rfl

/-- Claim C5 amended: only a Dictionary opened with a null key while the
stack is empty (and no root is pending) becomes the pending root - it is
attached to no enclosing container, and closing it installs it as the
root; an Array opened while the stack is empty is a contract violation
(assert(0)) whatever its key, because _json_new_array has no root-slot
branch. -/
theorem builder_root_container_amended :
    applyEvent initState (Event.newObj none) = Except.ok ⟨none, [Frame.fdict [] Attach.root]⟩
    ∧ (∀ entries, applyEvent ⟨none, [Frame.fdict entries Attach.root]⟩ Event.endObj
        = Except.ok ⟨some (JSObject.dict entries), []⟩)
    ∧ (∀ k, applyEvent initState (Event.newArr k) = Except.error BuildErr.contractViolation) :=
  ⟨rfl, fun _ => rfl, fun _ => rfl⟩

/-! ## Claim C6 -/

/-- Claim C6: whenever the tokenizer reports an error and the caller's
policy answers false (do not continue), the parse returns no document,
whatever was built before the error (any state st) and whatever events
would have followed: the longjmp abort deletes the pending root and Parse
returns nullptr, so no partially built tree is ever observed. -/
theorem parse_abort_returns_no_document (policy : Nat → Nat → List Nat → Bool)
    (st : BState) (l c : Nat) (m : List Nat) (rest : List Event)
    (h : policy l c m = false) :
    processEvents policy st (Event.error l c m :: rest) = Except.ok none := by
  simp [processEvents, h]

/-- Witness for claim C6, on the spec's own scenario: after the root
dictionary and one nested array have been built, an error event under the
always-abort default policy makes the whole parse yield no document. -/
theorem parse_abort_returns_no_document_witness :
    defaultPolicy 3 7 [98] = false
    ∧ runParse defaultPolicy [Event.newObj none, Event.newArr (some [107]), Event.error 3 7 [98]]
        = Except.ok none :=
  ⟨rfl, parse_abort_returns_no_document defaultPolicy
      ⟨none, [Frame.farr [] (Attach.toDict [107]), Frame.fdict [] Attach.root]⟩ 3 7 [98] [] rfl⟩

/-! ## Claim C7 -/

/-- Claim C7: serialization is deterministic and byte-exact - the empty
Dictionary renders as brace space brace, the empty Array as bracket space
bracket, and the one-entry dictionary mapping x to 1 dumped at top level is
brace, newline, four spaces, quote x quote space colon space 1, newline,
closing brace, terminating newline. -/
theorem dump_deterministic_concrete :
    dump1 (JSObject.dict []) 0 0 = [123, 32, 125]
    ∧ dump1 (JSObject.array []) 0 0 = [91, 32, 93]
    ∧ JSObject.dump (JSObject.dict [([120], JSObject.integer 1)]) 0
        = [123, 10, 32, 32, 32, 32, 34, 120, 34, 32, 58, 32, 49, 10, 125, 10] :=
  ⟨rfl, rfl, rfl⟩

/-! ## Claim C8 -/

/-- Claim C8: a string value renders double-quoted with its body produced
byte by byte per the spec rule - each byte below 0x20 becomes a backslash
and two lowercase hex digits, quote and backslash bytes gain a preceding
backslash, all other bytes pass verbatim - and in particular the string of
byte 7 then a quote renders as backslash 0 7 backslash quote (bytes 92, 48,
55, 92, 34). -/
theorem quote_string_escaping :
    (∀ s ind cind, dump1 (JSObject.string s) ind cind = Indent ind ++ [34] ++ QuoteString s ++ [34])
    ∧ (∀ s, QuoteString s = quoteStringSpec s)
    ∧ QuoteString [7, 34] = [92, 48, 55, 92, 34] := by
  refine ⟨fun s ind cind => rfl, ?_, by decide⟩
  intro s
  induction s with
  | nil => rfl
  | cons b rest ih =>
    simp only [QuoteString, quoteStringSpec, escByteSpec]
    by_cases h : b < 32
    · have hd : b / 16 % 16 = b / 16 :=
        Nat.mod_eq_of_lt (Nat.div_lt_of_lt_mul (by omega))
      simp [h, hd, ih]
    · by_cases h2 : b = 34 ∨ b = 92
      · simp [h, h2, ih]
      · simp [h, h2, ih]

/-! ## Claim C10 -/

/-- Claim C10: a dictionary key is rendered by the very quoting routine
used for string values: the one-entry dictionary's dump contains, after the
entry indent, exactly the bytes that the string value k itself would dump
to at indent 0 (quote, QuoteString of k, quote), then space colon space and
the value; concretely, the key of byte 7 then a quote renders with those
bytes escaped exactly as in a string value. -/
theorem dict_keys_quoted_like_string_values :
    (∀ (k : List Nat) (v : JSObject) (i c : Nat),
      dump1 (JSObject.dict [(k, v)]) i c
        = [123, 10] ++ Indent (c + 1) ++ dump1 (JSObject.string k) 0 0 ++ [32, 58, 32]
            ++ dump1 v 0 (c + 1) ++ [10] ++ Indent c ++ [125])
    ∧ dump1 (JSObject.dict [([7, 34], JSObject.null)]) 0 0
        = [123, 10, 32, 32, 32, 32, 34, 92, 48, 55, 92, 34, 34, 32, 58, 32, 110, 117, 108, 108, 10, 125] := by
  refine ⟨?_, rfl⟩
  intro k v i c
  simp [dump1, dumpDictEntries, Indent]
